import Mathlib

/-!
Shallow embedding of the harmonic tide prediction library `tide-lib.js`
(repository `tsuchim/tidal-miyajima`).

JavaScript numbers are modelled as real numbers (`ℝ`); a JavaScript `Date`
is modelled as `Option ℝ` holding the UTC time value in milliseconds
(`none` represents an invalid Date whose time value is NaN).  Functions that
can `throw` are modelled with `Except JsError`.  The calendar arithmetic of
`Date.UTC` / `getUTCFullYear` / `getUTCMonth` / `getUTCDate` is embedded by
the standard proleptic-Gregorian civil-day conversion that ECMAScript
specifies (no leap seconds, day number = floor of the time value divided by
86400000 ms).
-/

/-- Error classes thrown by the library.  `invalidArgument` stands for the
`TypeError`s raised by input validation, `configurationError` for the
`Error` raised on an unrecognized phase convention, and `referenceError`
for the JavaScript `ReferenceError` raised when an undeclared identifier is
read (see `seasonalMeanAnomalyCm`). -/
inductive JsError where
  | invalidArgument
  | configurationError
  | referenceError
deriving DecidableEq, Repr

/-- Embedding of `mod360` from tide-lib.js: `let x = deg % 360; if (x < 0) x += 360;`.
JavaScript `%` is the truncated remainder, so `deg % 360` is
`deg - 360 * trunc (deg / 360)` where `trunc` rounds toward zero
(ceiling for negative arguments, floor otherwise). -/
noncomputable def mod360 (deg : ℝ) : ℝ :=
  let x := deg - 360 * ((if deg < 0 then ⌈deg / 360⌉ else ⌊deg / 360⌋ : ℤ) : ℝ)
  if x < 0 then x + 360 else x

lemma mod360_mem (deg : ℝ) : 0 ≤ mod360 deg ∧ mod360 deg < 360 := by
  unfold mod360
  set c : ℤ := if deg < 0 then ⌈deg / 360⌉ else ⌊deg / 360⌋ with hc
  have hdd : (360 : ℝ) * (deg / 360) = deg := by field_simp
  have hub : (c : ℝ) < deg / 360 + 1 := by
    rw [hc]
    split
    · exact Int.ceil_lt_add_one _
    · have := Int.floor_le (deg / 360)
      linarith
  have hlb : deg / 360 - 1 < (c : ℝ) := by
    rw [hc]
    split
    · have := Int.le_ceil (deg / 360)
      linarith
    · exact Int.sub_one_lt_floor _
  have h1 : -360 < deg - 360 * (c : ℝ) := by nlinarith
  have h2 : deg - 360 * (c : ℝ) < 360 := by nlinarith
  by_cases hx : deg - 360 * (c : ℝ) < 0
  · rw [if_pos hx]
    constructor <;> linarith
  · rw [if_neg hx]
    constructor <;> linarith [not_lt.mp hx]

lemma mod360_nonneg (deg : ℝ) : 0 ≤ mod360 deg := (mod360_mem deg).1

lemma mod360_lt (deg : ℝ) : mod360 deg < 360 := (mod360_mem deg).2

lemma mod360_eq_self {deg : ℝ} (h0 : 0 ≤ deg) (h1 : deg < 360) : mod360 deg = deg := by
  unfold mod360
  have hq : ⌊deg / 360⌋ = 0 := by
    rw [Int.floor_eq_zero_iff]
    constructor
    · positivity
    · rw [div_lt_one (by norm_num : (0:ℝ) < 360)]
      exact h1
  rw [if_neg (not_lt.mpr h0), hq]
  push_cast
  rw [mul_zero, sub_zero, if_neg (not_lt.mpr h0)]

lemma mod360_idem (deg : ℝ) : mod360 (mod360 deg) = mod360 deg :=
  mod360_eq_self (mod360_nonneg deg) (mod360_lt deg)

lemma mod360_sub_intmul (deg : ℝ) : ∃ k : ℤ, mod360 deg = deg - 360 * (k : ℝ) := by
  unfold mod360
  set c : ℤ := if deg < 0 then ⌈deg / 360⌉ else ⌊deg / 360⌋ with hc
  by_cases hx : deg - 360 * (c : ℝ) < 0
  · refine ⟨c - 1, ?_⟩
    rw [if_pos hx]
    push_cast
    ring
  · exact ⟨c, by rw [if_neg hx]⟩

/-- C3: for every real `x`, `mod360 x` lies in `[0, 360)`, and `mod360` is
idempotent: `mod360 (mod360 x) = mod360 x`. -/
theorem mod360_mem_Ico_and_idempotent (x : ℝ) :
    (0 ≤ mod360 x ∧ mod360 x < 360) ∧ mod360 (mod360 x) = mod360 x :=
  ⟨mod360_mem x, mod360_idem x⟩

/-- Degrees-to-radians factor `DEG = Math.PI / 180` from tide-lib.js. -/
noncomputable def DEG : ℝ := Real.pi / 180

/-- Constant `MINUTE_MS` from tide-lib.js. -/
def MINUTE_MS : ℝ := 60000

/-- Constant `HOUR_MS` from tide-lib.js. -/
def HOUR_MS : ℝ := 3600000

/-- Constant `DAY_MS` from tide-lib.js. -/
def DAY_MS : ℝ := 86400000

/-- Embedding of `cosd` from tide-lib.js: cosine of an angle given in degrees. -/
noncomputable def cosd (d : ℝ) : ℝ := Real.cos (d * DEG)

/-- Embedding of `sind` from tide-lib.js: sine of an angle given in degrees. -/
noncomputable def sind (d : ℝ) : ℝ := Real.sin (d * DEG)

/-- Proleptic-Gregorian civil date `(year, month 1..12, day 1..31)` of a day
number counted from 1970-01-01 (the calendar ECMAScript prescribes for
`Date.prototype.getUTCFullYear/getUTCMonth/getUTCDate`). -/
def civilOfDay (z : ℤ) : ℤ × ℤ × ℤ :=
  let z' := z + 719468
  let era := Int.fdiv z' 146097
  let doe := z' - era * 146097
  let yoe := Int.fdiv (doe - Int.fdiv doe 1460 + Int.fdiv doe 36524 - Int.fdiv doe 146096) 365
  let y := yoe + era * 400
  let doy := doe - (365 * yoe + Int.fdiv yoe 4 - Int.fdiv yoe 100)
  let mp := Int.fdiv (5 * doy + 2) 153
  let d := doy - Int.fdiv (153 * mp + 2) 5 + 1
  let m := mp + (if mp < 10 then 3 else -9)
  (if m ≤ 2 then y + 1 else y, m, d)

/-- Day number (from 1970-01-01) of a proleptic-Gregorian civil date
`(year, month 1..12, day)`; the calendar arithmetic behind `Date.UTC`. -/
def dayOfCivil (y m d : ℤ) : ℤ :=
  let y' := if m ≤ 2 then y - 1 else y
  let era := Int.fdiv y' 400
  let yoe := y' - era * 400
  let mp := if 2 < m then m - 3 else m + 9
  let doy := Int.fdiv (153 * mp + 2) 5 + d - 1
  let doe := yoe * 365 + Int.fdiv yoe 4 - Int.fdiv yoe 100 + doy
  era * 146097 + doe - 719468

/-- ECMAScript `Day(t)`: the day number containing a time value `t` (ms). -/
noncomputable def epochDay (t : ℝ) : ℤ := ⌊t / DAY_MS⌋

/-- ECMAScript `Date.prototype.getUTCFullYear` on a time value `t` (ms). -/
noncomputable def getUTCFullYear (t : ℝ) : ℤ := (civilOfDay (epochDay t)).1

/-- ECMAScript `Date.prototype.getUTCMonth` (0-based) on a time value `t` (ms). -/
noncomputable def getUTCMonth (t : ℝ) : ℤ := (civilOfDay (epochDay t)).2.1 - 1

/-- ECMAScript `Date.prototype.getUTCDate` (day of month, 1-based) on a time value `t`. -/
noncomputable def getUTCDate (t : ℝ) : ℤ := (civilOfDay (epochDay t)).2.2

/-- ECMAScript `Date.UTC(year, monthIndex, day, 0, 0, 0, 0)`: time value (ms) of the
UTC midnight of the given civil date, with a 0-based month index. -/
def dateUTCms (y monthIndex day : ℤ) : ℝ := DAY_MS * (dayOfCivil y (monthIndex + 1) day : ℝ)

/-- Embedding of `utcMidnightMs` from tide-lib.js:
`Date.UTC(getUTCFullYear(), getUTCMonth(), getUTCDate(), 0, 0, 0, 0)`. -/
noncomputable def utcMidnightMs (t : ℝ) : ℝ :=
  dateUTCms (getUTCFullYear t) (getUTCMonth t) (getUTCDate t)

/-- Embedding of `dayOfYear0` from tide-lib.js: zero-based day of year of the UTC date,
`Math.floor((mid - jan1) / DAY_MS)` with `jan1 = Date.UTC(y, 0, 1)`. -/
noncomputable def dayOfYear0 (t : ℝ) : ℤ :=
  ⌊(utcMidnightMs t - dateUTCms (getUTCFullYear t) 0 1) / DAY_MS⌋

/-- The fundamental astronomical angles `{s, h, p, N}` (degrees). -/
structure AstroArgs where
  s : ℝ
  h : ℝ
  p : ℝ
  N : ℝ

/-- The advanced angles `{T, s, h, p, N}` (degrees). -/
structure AdvArgs where
  T : ℝ
  s : ℝ
  h : ℝ
  p : ℝ
  N : ℝ

/-- Embedding of `astroArgsAtUTMidnight` from tide-lib.js: the fundamental angles at
0:00 UTC from the calendar year `Y` and zero-based day-of-year `D`, with
the leap-year correction `L = Math.floor((Y + 3) / 4) - 500`. -/
noncomputable def astroArgsAtUTMidnight (t : ℝ) : AstroArgs :=
  let Y := getUTCFullYear t
  let D := dayOfYear0 t
  let y : ℝ := (Y : ℝ) - 2000
  let L : ℤ := ⌊((Y : ℝ) + 3) / 4⌋ - 500
  let d : ℝ := (D : ℝ) + (L : ℝ)
  { s := mod360 (211.728 + 129.38471 * y + 13.176396 * d)
    h := mod360 (279.974 - 0.23871 * y + 0.985647 * d)
    p := mod360 (83.298 + 40.66229 * y + 0.111404 * d)
    N := mod360 (125.071 - 19.32812 * y - 0.052954 * d) }

/-- Embedding of `advanceArgs` from tide-lib.js: advance the angles from 0:00 UT by
`tHours` hours; `T = mod360(180 + 15 * tHours)` and `N` is unchanged. -/
noncomputable def advanceArgs (b : AstroArgs) (tHours : ℝ) : AdvArgs :=
  { T := mod360 (180 + 15 * tHours)
    s := mod360 (b.s + 0.5490165 * tHours)
    h := mod360 (b.h + 0.0410687 * tHours)
    p := mod360 (b.p + 0.0046418 * tHours)
    N := b.N }

/-- Embedding of `nodalFU` from tide-lib.js: nodal factor `f` and phase correction `u`
(degrees) for a constituent id at node angle `Ndeg`; ids without a
tabulated entry fall back to `f = 1, u = 0`. -/
noncomputable def nodalFU (id : String) (Ndeg : ℝ) : ℝ × ℝ :=
  if id = "O1" then
    (1.0089 + 0.1871 * cosd Ndeg - 0.0147 * cosd (2 * Ndeg) + 0.0014 * cosd (3 * Ndeg),
     10.80 * sind Ndeg - 1.34 * sind (2 * Ndeg) + 0.19 * sind (3 * Ndeg))
  else if id = "K1" then
    (1.0060 + 0.1150 * cosd Ndeg - 0.0088 * cosd (2 * Ndeg) + 0.0006 * cosd (3 * Ndeg),
     -8.86 * sind Ndeg + 0.68 * sind (2 * Ndeg) - 0.07 * sind (3 * Ndeg))
  else if id = "M2" then
    (1.0004 + 0.0373 * cosd Ndeg + 0.0002 * cosd (2 * Ndeg),
     -2.14 * sind Ndeg)
  else if id = "K2" then
    (1.0241 + 0.2863 * cosd Ndeg + 0.0083 * cosd (2 * Ndeg) - 0.0015 * cosd (3 * Ndeg),
     -17.74 * sind Ndeg + 0.68 * sind (2 * Ndeg) - 0.04 * sind (3 * Ndeg))
  else (1, 0)

/-- One harmonic term of the seasonal mean-level model. -/
structure SeasonalTerm where
  amp_cm : ℝ
  phase_deg : ℝ

/-- The optional seasonal mean-level model of a parameter profile. -/
structure SeasonalMeanModel where
  type : String
  tzOffsetMinutes : ℝ
  annual : Option SeasonalTerm
  semiannual : Option SeasonalTerm

/-- Embedding of `seasonalMeanAnomalyCm` from tide-lib.js.  The function returns `0`
when the model is absent or its `type` is not `"annual+semiannual"`.
Otherwise the source executes
`const d = doyFractionInTz(dateUtc, tzOffsetMinutes);` where
`tzOffsetMinutes` is an undeclared identifier (the declared local constant
is `JST_OFFSET_MINUTES` and the field would be `model.tzOffsetMinutes`), so
the read raises a `ReferenceError` before any anomaly is computed. -/
noncomputable def seasonalMeanAnomalyCm (dateUtc : ℝ) (model : Option SeasonalMeanModel) :
    Except JsError ℝ :=
  match dateUtc, model with
  | _, none => .ok 0
  | _, some m =>
    if m.type ≠ "annual+semiannual" then .ok 0
    else .error .referenceError

/-- One harmonic constituent: id, amplitude `H_cm`, phase lag `kappa_deg`,
optional equilibrium offset `v0_deg`, and the five Doodson multipliers
`a = [a1, a2, a3, a4, a5]` over `T, s, h, p, N`. -/
structure Constituent where
  id : String
  H_cm : ℝ
  kappa_deg : ℝ
  v0_deg : Option ℝ
  a1 : ℝ
  a2 : ℝ
  a3 : ℝ
  a4 : ℝ
  a5 : ℝ

/-- A station parameter profile (`params` object of tide-lib.js). -/
structure TideParams where
  name : String
  phaseConvention : Option String
  referenceLongitude_deg : Option ℝ
  seasonalMeanModel : Option SeasonalMeanModel
  Z0_cm : ℝ
  constituents : List Constituent

/-- Embedding of `ITSUKUSHIMA_PARAMS` from tide-lib.js (JCG harmonic constants). -/
noncomputable def ITSUKUSHIMA_PARAMS : TideParams :=
  { name := "Itsukushima (Miyajima) - JCG harmonic constants"
    phaseConvention := some "cos"
    referenceLongitude_deg := some (132 + 19 / 60)
    seasonalMeanModel := some
      { type := "annual+semiannual"
        tzOffsetMinutes := 540
        annual := some { amp_cm := 16.60, phase_deg := -131.93 }
        semiannual := some { amp_cm := 2.02, phase_deg := -170.64 } }
    Z0_cm := 200
    constituents :=
      [ { id := "O1", H_cm := 24, kappa_deg := 201, v0_deg := none,
          a1 := 1, a2 := -2, a3 := 1, a4 := 0, a5 := 0 },
        { id := "P1", H_cm := 10.3, kappa_deg := 219, v0_deg := none,
          a1 := 1, a2 := 0, a3 := -1, a4 := 0, a5 := 0 },
        { id := "K1", H_cm := 31, kappa_deg := 219, v0_deg := none,
          a1 := 1, a2 := 0, a3 := 1, a4 := 0, a5 := 0 },
        { id := "M2", H_cm := 103, kappa_deg := 277, v0_deg := none,
          a1 := 2, a2 := -2, a3 := 2, a4 := 0, a5 := 0 },
        { id := "S2", H_cm := 40, kappa_deg := 310, v0_deg := none,
          a1 := 2, a2 := 0, a3 := 0, a4 := 0, a5 := 0 },
        { id := "K2", H_cm := 10.9, kappa_deg := 310, v0_deg := none,
          a1 := 2, a2 := 0, a3 := 2, a4 := 0, a5 := 0 } ] }

/-- A cached per-UTC-day bundle (`dayCtx` of tide-lib.js). -/
structure DayContext where
  midnightMs : ℝ
  base : AstroArgs
  fu : List (ℝ × ℝ)

/-- Embedding of `createDayContext` from tide-lib.js. -/
noncomputable def createDayContext (midnightMs : ℝ) (params : TideParams) : DayContext :=
  let base := astroArgsAtUTMidnight midnightMs
  { midnightMs := midnightMs
    base := base
    fu := params.constituents.map fun c => nodalFU c.id base.N }

/-- The contribution of one constituent to the height sum: the body of the
`for` loop of `heightCmAtUTCWithDayCtx`. -/
noncomputable def constituentTermCm (conv : String) (T : ℝ) (args : AdvArgs)
    (c : Constituent) (fu : ℝ × ℝ) : ℝ :=
  let V := c.a1 * T + c.a2 * args.s + c.a3 * args.h + c.a4 * args.p + c.a5 * args.N
  let v0 := c.v0_deg.getD 0
  let phase := mod360 (V + v0 + fu.2 - c.kappa_deg)
  if conv = "sin" then fu.1 * c.H_cm * Real.sin (phase * DEG)
  else fu.1 * c.H_cm * Real.cos (phase * DEG)

/-- Embedding of `heightCmAtUTCWithDayCtx` from tide-lib.js.  The mean level and the
seasonal anomaly are evaluated before the phase-convention check, exactly
as in the source (line order 169 then 173). -/
noncomputable def heightCmAtUTCWithDayCtx (dateUtc : ℝ) (params : TideParams)
    (dayCtx : DayContext) : Except JsError ℝ :=
  let tHours := (dateUtc - dayCtx.midnightMs) / HOUR_MS
  let args := advanceArgs dayCtx.base tHours
  let T := mod360 (args.T + params.referenceLongitude_deg.getD 0)
  match seasonalMeanAnomalyCm dateUtc params.seasonalMeanModel with
  | .error e => .error e
  | .ok anom =>
    let conv := params.phaseConvention.getD "cos"
    if conv ≠ "sin" ∧ conv ≠ "cos" then .error .configurationError
    else
      .ok (params.Z0_cm + anom +
        ((params.constituents.zip dayCtx.fu).map
          (fun pr => constituentTermCm conv T args pr.1 pr.2)).sum)

/-- Embedding of `heightCmAtUTC` from tide-lib.js: validates the Date, builds the
DayContext for the instant's UTC midnight and evaluates. -/
noncomputable def heightCmAtUTC (dateUtc : Option ℝ) (params : TideParams) :
    Except JsError ℝ :=
  match dateUtc with
  | none => .error .invalidArgument
  | some t =>
    heightCmAtUTCWithDayCtx t params (createDayContext (utcMidnightMs t) params)

/-- The DayContext update at the top of the series loop:
`if (!dayCtx || dayCtx.midnightMs !== midMs) dayCtx = createDayContext(midMs, params)`. -/
noncomputable def pickCtx (params : TideParams) (midMs : ℝ) :
    Option DayContext → DayContext
  | some c => if c.midnightMs = midMs then c else createDayContext midMs params
  | none => createDayContext midMs params

/-- The sampling loop of `seriesCmAtUTC`, indexed by the remaining sample
indices; a thrown error aborts the whole loop with no partial output. -/
noncomputable def seriesSamples (params : TideParams) (startMs stepMs : ℝ) :
    List ℕ → Option DayContext → Except JsError (List (ℝ × ℝ))
  | [], _ => .ok []
  | i :: rest, dayCtx =>
    let tMs := startMs + (i : ℝ) * stepMs
    let midMs := utcMidnightMs tMs
    let ctx := pickCtx params midMs dayCtx
    match heightCmAtUTCWithDayCtx tMs params ctx with
    | .error e => .error e
    | .ok cm =>
      match seriesSamples params startMs stepMs rest (some ctx) with
      | .error e => .error e
      | .ok out => .ok ((tMs, cm) :: out)

/-- Embedding of `seriesCmAtUTC` from tide-lib.js: validates the start Date, the
duration and the step, then samples `i = 0 .. floor(minutes/stepMinutes)`. -/
noncomputable def seriesCmAtUTC (startDateUtc : Option ℝ) (minutes stepMinutes : ℝ)
    (params : TideParams) : Except JsError (List (ℝ × ℝ)) :=
  match startDateUtc with
  | none => .error .invalidArgument
  | some startMs =>
    if minutes < 0 then .error .invalidArgument
    else if stepMinutes ≤ 0 then .error .invalidArgument
    else
      let stepMs := stepMinutes * MINUTE_MS
      let n : ℕ := (⌊minutes / stepMinutes⌋).toNat
      seriesSamples params startMs stepMs (List.range (n + 1)) none

lemma cos_mod360_deg (x : ℝ) : Real.cos (mod360 x * DEG) = Real.cos (x * DEG) := by
  obtain ⟨k, hk⟩ := mod360_sub_intmul x
  rw [hk]
  have h : (x - 360 * (k : ℝ)) * DEG = x * DEG + ((-k : ℤ) : ℝ) * (2 * Real.pi) := by
    unfold DEG
    push_cast
    ring
  rw [h, Real.cos_add_int_mul_two_pi]

lemma sin_mod360_deg (x : ℝ) : Real.sin (mod360 x * DEG) = Real.sin (x * DEG) := by
  obtain ⟨k, hk⟩ := mod360_sub_intmul x
  rw [hk]
  have h : (x - 360 * (k : ℝ)) * DEG = x * DEG + ((-k : ℤ) : ℝ) * (2 * Real.pi) := by
    unfold DEG
    push_cast
    ring
  rw [h, Real.sin_add_int_mul_two_pi]

lemma mod360_zero_arg : mod360 180 = 180 :=
  mod360_eq_self (by norm_num) (by norm_num)

lemma mod360_360 : mod360 360 = 0 := by
  unfold mod360
  have h1 : ((360 : ℝ) / 360) = 1 := by norm_num
  rw [if_neg (by norm_num : ¬((360:ℝ) < 0)), h1, Int.floor_one]
  norm_num

/-- C8: `advanceArgs` returns `T = mod360(180 + 15 t)` (so `T = 180` at
0:00 UTC and `T = 0` at 12:00 UTC), advances `s`, `h`, `p` linearly at the
fixed hourly rates 0.5490165, 0.0410687 and 0.0046418 degrees per hour, and
returns `N` unchanged. -/
theorem advanceArgs_rates (b : AstroArgs) (t : ℝ) :
    (advanceArgs b t).T = mod360 (180 + 15 * t) ∧
    (advanceArgs b 0).T = 180 ∧
    (advanceArgs b 12).T = 0 ∧
    (advanceArgs b t).s = mod360 (b.s + 0.5490165 * t) ∧
    (advanceArgs b t).h = mod360 (b.h + 0.0410687 * t) ∧
    (advanceArgs b t).p = mod360 (b.p + 0.0046418 * t) ∧
    (advanceArgs b t).N = b.N := by
  refine ⟨rfl, ?_, ?_, rfl, rfl, rfl, rfl⟩
  · show mod360 (180 + 15 * 0) = 180
    rw [show (180 : ℝ) + 15 * 0 = 180 by norm_num]
    exact mod360_zero_arg
  · show mod360 (180 + 15 * 12) = 0
    rw [show (180 : ℝ) + 15 * 12 = 360 by norm_num]
    exact mod360_360

/-- C9: `astroArgsAtUTMidnight` computes `s, h, p, N` from the calendar
year `Y` and the zero-based day-of-year `D`, adding the leap-year
correction `L = floor((Y+3)/4) - 500` to the day count before multiplying
by the per-day rates 13.176396, 0.985647, 0.111404 and -0.052954 deg/day
(`N` decreasing), and each returned angle lies in `[0, 360)`. -/
theorem astroArgsAtUTMidnight_formula (t : ℝ) :
    astroArgsAtUTMidnight t =
      { s := mod360 (211.728 + 129.38471 * ((getUTCFullYear t : ℝ) - 2000)
          + 13.176396 * ((dayOfYear0 t : ℝ) + ((⌊((getUTCFullYear t : ℝ) + 3) / 4⌋ - 500 : ℤ) : ℝ)))
        h := mod360 (279.974 - 0.23871 * ((getUTCFullYear t : ℝ) - 2000)
          + 0.985647 * ((dayOfYear0 t : ℝ) + ((⌊((getUTCFullYear t : ℝ) + 3) / 4⌋ - 500 : ℤ) : ℝ)))
        p := mod360 (83.298 + 40.66229 * ((getUTCFullYear t : ℝ) - 2000)
          + 0.111404 * ((dayOfYear0 t : ℝ) + ((⌊((getUTCFullYear t : ℝ) + 3) / 4⌋ - 500 : ℤ) : ℝ)))
        N := mod360 (125.071 - 19.32812 * ((getUTCFullYear t : ℝ) - 2000)
          - 0.052954 * ((dayOfYear0 t : ℝ) + ((⌊((getUTCFullYear t : ℝ) + 3) / 4⌋ - 500 : ℤ) : ℝ))) } ∧
    (0 ≤ (astroArgsAtUTMidnight t).s ∧ (astroArgsAtUTMidnight t).s < 360) ∧
    (0 ≤ (astroArgsAtUTMidnight t).h ∧ (astroArgsAtUTMidnight t).h < 360) ∧
    (0 ≤ (astroArgsAtUTMidnight t).p ∧ (astroArgsAtUTMidnight t).p < 360) ∧
    (0 ≤ (astroArgsAtUTMidnight t).N ∧ (astroArgsAtUTMidnight t).N < 360) := by
  refine ⟨rfl, ?_, ?_, ?_, ?_⟩ <;> exact mod360_mem _

/-- C7: a constituent id without a tabulated nodal entry gets the fallback
`f = 1, u = 0`, and its contribution to the height reduces to
`H_cm * trig(V - kappa_deg)` (the fallback is a total function, it raises
no error). -/
theorem nodalFU_default_fallback (N : ℝ) (c : Constituent) (conv : String) (T : ℝ)
    (args : AdvArgs) (h1 : c.id ≠ "O1") (h2 : c.id ≠ "K1") (h3 : c.id ≠ "M2")
    (h4 : c.id ≠ "K2") (hv : c.v0_deg = none) :
    nodalFU c.id N = (1, 0) ∧
    constituentTermCm conv T args c (nodalFU c.id N) =
      c.H_cm * (if conv = "sin"
        then Real.sin ((c.a1 * T + c.a2 * args.s + c.a3 * args.h + c.a4 * args.p
            + c.a5 * args.N - c.kappa_deg) * DEG)
        else Real.cos ((c.a1 * T + c.a2 * args.s + c.a3 * args.h + c.a4 * args.p
            + c.a5 * args.N - c.kappa_deg) * DEG)) := by
  have hfu : nodalFU c.id N = (1, 0) := by
    unfold nodalFU
    rw [if_neg h1, if_neg h2, if_neg h3, if_neg h4]
  refine ⟨hfu, ?_⟩
  rw [hfu]
  unfold constituentTermCm
  simp only [hv, Option.getD_none]
  set V := c.a1 * T + c.a2 * args.s + c.a3 * args.h + c.a4 * args.p + c.a5 * args.N with hV
  have harg : V + 0 + (1, (0:ℝ)).2 - c.kappa_deg = V - c.kappa_deg := by
    simp
  rw [harg]
  by_cases hc : conv = "sin"
  · rw [if_pos hc, if_pos hc, sin_mod360_deg]
    ring
  · rw [if_neg hc, if_neg hc, cos_mod360_deg]
    ring

lemma seasonalMeanAnomalyCm_error_eq {t : ℝ} {model : Option SeasonalMeanModel}
    {e : JsError} (h : seasonalMeanAnomalyCm t model = .error e) :
    e = .referenceError := by
  cases model with
  | none => simp [seasonalMeanAnomalyCm] at h
  | some m =>
    by_cases ht : m.type = "annual+semiannual"
    · simp [seasonalMeanAnomalyCm, ht] at h
      exact h.symm
    · simp [seasonalMeanAnomalyCm, ht] at h

lemma heightCmAtUTCWithDayCtx_error_cases {t : ℝ} {p : TideParams} {ctx : DayContext}
    {e : JsError} (h : heightCmAtUTCWithDayCtx t p ctx = .error e) :
    e = .referenceError ∨ e = .configurationError := by
  unfold heightCmAtUTCWithDayCtx at h
  cases hm : seasonalMeanAnomalyCm t p.seasonalMeanModel with
  | error e' =>
    rw [hm] at h
    simp only [Except.error.injEq] at h
    exact Or.inl (h ▸ seasonalMeanAnomalyCm_error_eq hm)
  | ok v =>
    rw [hm] at h
    simp only [] at h
    by_cases hcv : p.phaseConvention.getD "cos" ≠ "sin" ∧ p.phaseConvention.getD "cos" ≠ "cos"
    · rw [if_pos hcv] at h
      simp only [Except.error.injEq] at h
      exact Or.inr h.symm
    · rw [if_neg hcv] at h
      simp at h

lemma heightCmAtUTCWithDayCtx_ne_invalidArgument (t : ℝ) (p : TideParams)
    (ctx : DayContext) :
    heightCmAtUTCWithDayCtx t p ctx ≠ .error .invalidArgument := by
  intro h
  rcases heightCmAtUTCWithDayCtx_error_cases h with h' | h' <;> cases h'

lemma seriesSamples_ne_invalidArgument (params : TideParams) (a b : ℝ) (l : List ℕ) :
    ∀ ctx, seriesSamples params a b l ctx ≠ .error .invalidArgument := by
  induction l with
  | nil => intro ctx; simp [seriesSamples]
  | cons i rest ih =>
    intro ctx
    simp only [seriesSamples]
    cases hh : heightCmAtUTCWithDayCtx (a + (i : ℝ) * b) params
        (pickCtx params (utcMidnightMs (a + (i : ℝ) * b)) ctx) with
    | error e =>
      rcases heightCmAtUTCWithDayCtx_error_cases hh with he | he <;>
        simp [hh, he]
    | ok cm =>
      cases hr : seriesSamples params a b rest
          (some (pickCtx params (utcMidnightMs (a + (i : ℝ) * b)) ctx)) with
      | error e =>
        have := ih (some (pickCtx params (utcMidnightMs (a + (i : ℝ) * b)) ctx))
        rw [hr] at this
        simp only [hh, hr]
        intro hEq
        exact this hEq
      | ok out =>
        simp [hh, hr]

/-- C5: `seriesCmAtUTC` fails with `InvalidArgument` (producing no samples)
exactly when the start instant is invalid, the duration is negative, or the
step is non-positive; in particular a duration of `-5` or a step of `0`
fails this way. -/
theorem seriesCmAtUTC_invalidArgument_iff (start : Option ℝ) (m s : ℝ)
    (params : TideParams) :
    seriesCmAtUTC start m s params = .error .invalidArgument ↔
      start = none ∨ m < 0 ∨ s ≤ 0 := by
  constructor
  · intro h
    by_contra hc
    push_neg at hc
    obtain ⟨h1, h2, h3⟩ := hc
    cases start with
    | none => exact h1 rfl
    | some a =>
      rw [seriesCmAtUTC] at h
      rw [if_neg (not_lt.mpr h2), if_neg (not_le.mpr h3)] at h
      exact seriesSamples_ne_invalidArgument params a (s * MINUTE_MS) _ none h
  · intro h
    cases start with
    | none => rfl
    | some a =>
      rw [seriesCmAtUTC]
      by_cases hm : m < 0
      · rw [if_pos hm]
      · rw [if_neg hm]
        have hs : s ≤ 0 := by
          rcases h with h | h | h
          · cases h
          · exact absurd h hm
          · exact h
        rw [if_pos hs]

lemma heightCmAtUTCWithDayCtx_ne_config_of_valid (t : ℝ) (p : TideParams)
    (ctx : DayContext)
    (hc : ¬(p.phaseConvention.getD "cos" ≠ "sin" ∧ p.phaseConvention.getD "cos" ≠ "cos")) :
    heightCmAtUTCWithDayCtx t p ctx ≠ .error .configurationError := by
  intro hEq
  unfold heightCmAtUTCWithDayCtx at hEq
  cases hm : seasonalMeanAnomalyCm t p.seasonalMeanModel with
  | error e =>
    rw [hm] at hEq
    simp only [Except.error.injEq] at hEq
    have he := seasonalMeanAnomalyCm_error_eq hm
    rw [he] at hEq
    cases hEq
  | ok v =>
    rw [hm] at hEq
    simp only [if_neg hc] at hEq
    exact Except.noConfusion hEq

lemma createDayContext_with_conv (m : ℝ) (params : TideParams) (cv : Option String) :
    createDayContext m { params with phaseConvention := cv } =
      createDayContext m params := rfl

/-- C10: when a profile's `phaseConvention` field is absent, evaluation
never raises a `ConfigurationError`: the missing field defaults to the
cosine convention, so the result is the same as with
`phaseConvention = "cos"`. -/
theorem heightCmAtUTC_phaseConvention_absent (t : Option ℝ) (params : TideParams)
    (h : params.phaseConvention = none) :
    heightCmAtUTC t params ≠ .error .configurationError ∧
    heightCmAtUTC t params =
      heightCmAtUTC t { params with phaseConvention := some "cos" } := by
  cases t with
  | none => exact ⟨by simp [heightCmAtUTC], rfl⟩
  | some a =>
    have hbody : heightCmAtUTCWithDayCtx a params
        (createDayContext (utcMidnightMs a) params) =
        heightCmAtUTCWithDayCtx a { params with phaseConvention := some "cos" }
        (createDayContext (utcMidnightMs a) { params with phaseConvention := some "cos" }) := by
      unfold heightCmAtUTCWithDayCtx
      cases hm : seasonalMeanAnomalyCm a params.seasonalMeanModel with
      | error e => rfl
      | ok v => simp [h, createDayContext_with_conv]
    refine ⟨?_, hbody⟩
    show heightCmAtUTCWithDayCtx a params
        (createDayContext (utcMidnightMs a) params) ≠ .error .configurationError
    exact heightCmAtUTCWithDayCtx_ne_config_of_valid a params _ (by simp [h])

lemma createDayContext_midnightMs (m : ℝ) (params : TideParams) :
    (createDayContext m params).midnightMs = m := rfl

lemma pickCtx_eq (params : TideParams) (midMs : ℝ) (ctx : Option DayContext)
    (hctx : ∀ c, ctx = some c → c = createDayContext c.midnightMs params) :
    pickCtx params midMs ctx = createDayContext midMs params := by
  cases ctx with
  | none => rfl
  | some c =>
    simp only [pickCtx]
    by_cases hm : c.midnightMs = midMs
    · rw [if_pos hm, hctx c rfl, hm]
    · rw [if_neg hm]

lemma seriesSamples_sound (params : TideParams) (a b : ℝ) (l : List ℕ) :
    ∀ (ctx : Option DayContext) (out : List (ℝ × ℝ)),
      (∀ c, ctx = some c → c = createDayContext c.midnightMs params) →
      seriesSamples params a b l ctx = .ok out →
      ∀ smp ∈ out,
        heightCmAtUTCWithDayCtx smp.1 params
          (createDayContext (utcMidnightMs smp.1) params) = .ok smp.2 := by
  induction l with
  | nil =>
    intro ctx out _ hrun smp hmem
    simp only [seriesSamples, Except.ok.injEq] at hrun
    rw [← hrun] at hmem
    cases hmem
  | cons i rest ih =>
    intro ctx out hctx hrun smp hmem
    simp only [seriesSamples] at hrun
    have hpick : pickCtx params (utcMidnightMs (a + (i : ℝ) * b)) ctx =
        createDayContext (utcMidnightMs (a + (i : ℝ) * b)) params :=
      pickCtx_eq params _ ctx hctx
    rw [hpick] at hrun
    cases hh : heightCmAtUTCWithDayCtx (a + (i : ℝ) * b) params
        (createDayContext (utcMidnightMs (a + (i : ℝ) * b)) params) with
    | error e =>
      rw [hh] at hrun
      exact absurd hrun (by simp)
    | ok cm =>
      rw [hh] at hrun
      cases hr : seriesSamples params a b rest
          (some (createDayContext (utcMidnightMs (a + (i : ℝ) * b)) params)) with
      | error e =>
        rw [hr] at hrun
        exact absurd hrun (by simp)
      | ok out' =>
        rw [hr] at hrun
        simp only [Except.ok.injEq] at hrun
        rw [← hrun] at hmem
        rcases List.mem_cons.mp hmem with hhead | htail
        · rw [hhead]
          exact hh
        · exact ih (some (createDayContext (utcMidnightMs (a + (i : ℝ) * b)) params))
            out' (by
              intro c hc
              injection hc with hc'
              rw [← hc', createDayContext_midnightMs]) hr smp htail

/-- C2: every sample produced by `seriesCmAtUTC` has exactly the height an
independent call to the single-instant evaluator `heightCmAtUTC` returns at
that sample's instant; the cached DayContext (also across a UTC-midnight
crossing) never changes any sample value. -/
theorem seriesCmAtUTC_matches_heightCmAtUTC (start : Option ℝ) (m s : ℝ)
    (params : TideParams) (out : List (ℝ × ℝ))
    (h : seriesCmAtUTC start m s params = .ok out) :
    ∀ smp ∈ out, heightCmAtUTC (some smp.1) params = .ok smp.2 := by
  intro smp hmem
  cases start with
  | none => exact absurd h (by simp [seriesCmAtUTC])
  | some a =>
    rw [seriesCmAtUTC] at h
    by_cases hm : m < 0
    · rw [if_pos hm] at h
      exact absurd h (by simp)
    · rw [if_neg hm] at h
      by_cases hs : s ≤ 0
      · rw [if_pos hs] at h
        exact absurd h (by simp)
      · rw [if_neg hs] at h
        have := seriesSamples_sound params a (s * MINUTE_MS) _ none out
          (by intro c hc; cases hc) h smp hmem
        exact this

/-- C1: evaluating the default profile (whose `seasonalMeanModel` is
present with type `"annual+semiannual"`) raises a `ReferenceError` instead
of returning `z0 + seasonal anomaly + constituent sum`: line 121 of
tide-lib.js reads the undeclared identifier `tzOffsetMinutes` (instead of
`model.tzOffsetMinutes`; the declared local `JST_OFFSET_MINUTES` is
unused), so `heightCmAtUTC` throws for every valid instant. -/
theorem heightCmAtUTC_default_profile_referenceError :
    heightCmAtUTC (some 0) ITSUKUSHIMA_PARAMS = .error .referenceError := by
  simp [heightCmAtUTC, heightCmAtUTCWithDayCtx, seasonalMeanAnomalyCm,
    ITSUKUSHIMA_PARAMS]

/-- C4: with the default profile, `seriesCmAtUTC(start, 60, 10, params)`
does not return 7 samples: the first sample evaluation raises the
`ReferenceError` of the broken seasonal-anomaly code, so the series call
propagates the error and produces no samples at all. -/
theorem seriesCmAtUTC_default_profile_referenceError :
    seriesCmAtUTC (some 0) 60 10 ITSUKUSHIMA_PARAMS = .error .referenceError := by
  simp only [seriesCmAtUTC]
  rw [if_neg (by norm_num), if_neg (by norm_num)]
  have hn : (⌊(60 : ℝ) / 10⌋).toNat = 6 := by
    rw [show (60 : ℝ) / 10 = ((6 : ℤ) : ℝ) by norm_num, Int.floor_intCast]
    rfl
  rw [hn, show List.range (6 + 1) = [0, 1, 2, 3, 4, 5, 6] from rfl]
  simp [seriesSamples, pickCtx, heightCmAtUTCWithDayCtx, seasonalMeanAnomalyCm,
    ITSUKUSHIMA_PARAMS]

/-- C6: a profile with the invalid phase convention `"tan"` and the default
seasonal model fails with a `ReferenceError`, not a `ConfigurationError`:
the (broken) seasonal-anomaly evaluation at line 169 of tide-lib.js runs
before the phase-convention check at line 173. -/
theorem heightCmAtUTC_invalid_convention_referenceError :
    ({ ITSUKUSHIMA_PARAMS with phaseConvention := some "tan" } :
        TideParams).phaseConvention.getD "cos" ≠ "sin" ∧
    ({ ITSUKUSHIMA_PARAMS with phaseConvention := some "tan" } :
        TideParams).phaseConvention.getD "cos" ≠ "cos" ∧
    heightCmAtUTC (some 0) { ITSUKUSHIMA_PARAMS with phaseConvention := some "tan" } =
      .error .referenceError := by
  refine ⟨by simp [ITSUKUSHIMA_PARAMS], by simp [ITSUKUSHIMA_PARAMS], ?_⟩
  simp [heightCmAtUTC, heightCmAtUTCWithDayCtx, seasonalMeanAnomalyCm,
    ITSUKUSHIMA_PARAMS]

/-- A minimal well-formed profile (no seasonal model, no constituents,
absent phase convention) used to exercise the evaluator on concrete
instants. -/
def TRIVIAL_PARAMS : TideParams :=
  { name := "trivial"
    phaseConvention := none
    referenceLongitude_deg := none
    seasonalMeanModel := none
    Z0_cm := 200
    constituents := [] }

theorem seriesCmAtUTC_matches_heightCmAtUTC_witness :
    heightCmAtUTC (some 0) TRIVIAL_PARAMS = .ok 200 := by
  have hser : seriesCmAtUTC (some 0) 0 10 TRIVIAL_PARAMS = .ok [((0 : ℝ), (200 : ℝ))] := by
    simp only [seriesCmAtUTC]
    rw [if_neg (by norm_num), if_neg (by norm_num)]
    have h0 : (⌊(0 : ℝ) / 10⌋).toNat = 0 := by
      rw [show (0 : ℝ) / 10 = ((0 : ℤ) : ℝ) by norm_num, Int.floor_intCast]
      rfl
    rw [h0, show List.range (0 + 1) = [0] from rfl]
    simp [seriesSamples, pickCtx, heightCmAtUTCWithDayCtx, seasonalMeanAnomalyCm,
      TRIVIAL_PARAMS]
  exact seriesCmAtUTC_matches_heightCmAtUTC (some 0) 0 10 TRIVIAL_PARAMS
    [((0 : ℝ), (200 : ℝ))] hser ((0 : ℝ), (200 : ℝ)) (by simp)

theorem nodalFU_default_fallback_witness : nodalFU "S2" 0 = (1, 0) :=
  (nodalFU_default_fallback 0 ⟨"S2", 40, 310, none, 2, 0, 0, 0, 0⟩ "cos" 0
    ⟨0, 0, 0, 0, 0⟩ (by decide) (by decide) (by decide) (by decide) rfl).1

theorem heightCmAtUTC_phaseConvention_absent_witness :
    heightCmAtUTC (some 0) TRIVIAL_PARAMS ≠ .error .configurationError :=
  (heightCmAtUTC_phaseConvention_absent (some 0) TRIVIAL_PARAMS rfl).1
